import Mathlib

/-!
Verification of the real-time audio-ingestion and transcript-distribution
pipeline of the meeting-ai-analytics backend.

The definitions below are a shallow embedding of the Python source:

* `store_final_transcript` embeds
  `backend/app/services/transcript/store.py` (TranscriptStore);
* the connection manager and registry operations embed
  `backend/app/services/ws/connection.py` (ConnectionManager) and the
  module-level `ingest_registry` logic of `backend/app/routers/ws.py`;
* `check_rate_limit` embeds `ConnectionRateLimiter.check_rate_limit` of
  `backend/app/websocket/ingest.py`;
* the fan-out bus maps embed `backend/app/services/pubsub/redis_bus.py`;
* the ingest session, streaming loop, transcript callback and per-meeting
  segment counter embed `websocket_ingest` / `on_transcript` of
  `backend/app/routers/ws.py`.

Machine state (Python dicts) is modelled as total functions into `Option`;
websockets are identified by `Nat` ids; the effects of a handler are
collected into explicit event lists so that ordering claims can be stated.
The routine in `backend/app/routers/ws.py` references a name `hs` (lines
267 and 353) that is bound nowhere in the module; evaluating it raises a
`NameError` at run time, which the embedding records as an explicit
`raiseName` effect / outcome.
-/

/-- Settings default `MAX_WS_CLIENTS_PER_MEETING` (backend/app/core/config.py). -/
def maxWsClientsPerMeeting : Nat := 20

/-- Settings default `MAX_INGEST_MSG_BYTES` (backend/app/core/config.py). -/
def maxIngestMsgBytes : Nat := 32768

/-- Settings default `INGEST_SAMPLE_RATE` (backend/app/core/config.py). -/
def ingestSampleRate : Int := 16000

/-- Settings default `INGEST_CHANNELS` (backend/app/core/config.py). -/
def ingestChannels : Int := 1

/-- Constant `RATE_LIMIT_WINDOW` of backend/app/websocket/ingest.py (seconds). -/
def rateLimitWindow : Int := 10

/-- Constant `RATE_LIMIT_MAX_ATTEMPTS` of backend/app/websocket/ingest.py. -/
def rateLimitMaxAttempts : Nat := 5

/-! ## Idempotent transcript store
Embedding of `TranscriptStore.store_final_transcript` and the
`transcripts` table it writes
(backend/app/services/transcript/store.py, lines 15-65).
The database is a list of rows; timing values are `Int` milliseconds,
the float `confidence` is modelled as a rational, and the `raw_json`
dict is abstracted to its serialized form. The `except` branch of the
source (a genuine storage failure returning `False` without writing) is
outside this model: we model the executions in which the database is
reachable. -/

/-- One row of the `transcripts` table, as built by
`store_final_transcript` (is_final is always set to True there). -/
structure TranscriptRow where
  meeting_id : String
  segment_no : Nat
  speaker : Option String
  text : String
  start_ms : Int
  end_ms : Int
  is_final : Bool
  confidence : Option Rat
  raw_json : Option String
  idempotent_key : String
  deriving DecidableEq, Repr

/-- The idempotent key format of store.py line 29:
`"{meeting_id}:{deepgram_stream_id}:{segment_no}"`. -/
def idempotentKey (meeting_id deepgram_stream_id : String) (segment_no : Nat) : String :=
  meeting_id ++ ":" ++ deepgram_stream_id ++ ":" ++ toString segment_no

/-- The `SELECT id FROM transcripts WHERE idempotent_key = :key` existence
check of store.py lines 32-36. -/
def existsKey (db : List TranscriptRow) (key : String) : Bool :=
  db.any (fun r => r.idempotent_key == key)

/-- Number of stored rows carrying a given idempotent key. -/
def countKey (db : List TranscriptRow) (key : String) : Nat :=
  (db.filter (fun r => r.idempotent_key == key)).length

/-- `TranscriptStore.store_final_transcript` (store.py lines 15-59):
computes the idempotent key, returns success without writing when a row
with that key already exists, and otherwise inserts one new row and
returns success. -/
def store_final_transcript (db : List TranscriptRow)
    (meeting_id : String) (segment_no : Nat) (transcript_text : String)
    (start_ms end_ms : Int) (deepgram_stream_id : String)
    (speaker : Option String) (confidence : Option Rat)
    (raw_json : Option String) : Bool × List TranscriptRow :=
  let key := idempotentKey meeting_id deepgram_stream_id segment_no
  if existsKey db key then
    (true, db)
  else
    (true, db ++ [{ meeting_id := meeting_id, segment_no := segment_no,
                    speaker := speaker, text := transcript_text,
                    start_ms := start_ms, end_ms := end_ms, is_final := true,
                    confidence := confidence, raw_json := raw_json,
                    idempotent_key := key }])

/-! ## Connection manager and ingest registry
Embedding of `ConnectionManager` (backend/app/services/ws/connection.py)
and of the module-level `ingest_registry` / `meeting_segments` dicts of
backend/app/routers/ws.py. Websockets are identified by `Nat` ids and the
Python dicts become total functions into `Option` / `List`. -/

/-- `connection_meetings` values: a plain meeting id string for
subscribers, a `(meeting_id, source)` pair for ingest connections
(connection.py lines 41-57 branch on this shape). -/
inductive ConnInfo where
  | sub (meeting_id : String)
  | ingest (key : String × String)
  deriving DecidableEq, Repr

/-- The three maps of `ConnectionManager.__init__`
(connection.py lines 23-29). An absent meeting in
`subscriber_connections` is read as the empty list, matching the
source's `.get(meeting_id, [])` / `setdefault` usage. -/
structure ConnManager where
  subscriber_connections : String → List Nat
  ingest_connections : String × String → Option Nat
  connection_meetings : Nat → Option ConnInfo

/-- The empty manager. -/
def ConnManager.empty : ConnManager :=
  { subscriber_connections := fun _ => []
    ingest_connections := fun _ => none
    connection_meetings := fun _ => none }

/-- Subscriber registration as performed inline by `websocket_subscriber`
(backend/app/routers/ws.py lines 78-86): reject when the meeting already
has at least `max_clients` subscribers, otherwise append the websocket
and record its meeting. -/
def register_subscriber (mgr : ConnManager) (meeting_id : String)
    (ws : Nat) (max_clients : Nat) : Bool × ConnManager :=
  if (mgr.subscriber_connections meeting_id).length ≥ max_clients then
    (false, mgr)
  else
    (true,
      { mgr with
        subscriber_connections := fun m =>
          if m = meeting_id then mgr.subscriber_connections meeting_id ++ [ws]
          else mgr.subscriber_connections m
        connection_meetings := fun w =>
          if w = ws then some (.sub meeting_id) else mgr.connection_meetings w })

/-- `ConnectionManager.disconnect` (connection.py lines 35-61): look up
the connection info; for a subscriber remove the websocket from its
meeting's list; for an ingest connection delete the registry entry only
when it still maps to this very websocket; finally drop the
`connection_meetings` record. Unknown websockets are a no-op. -/
def ConnManager.disconnect (mgr : ConnManager) (ws : Nat) : ConnManager :=
  match mgr.connection_meetings ws with
  | none => mgr
  | some (.sub meeting_id) =>
      { mgr with
        subscriber_connections := fun m =>
          if m = meeting_id then (mgr.subscriber_connections meeting_id).erase ws
          else mgr.subscriber_connections m
        connection_meetings := fun w =>
          if w = ws then none else mgr.connection_meetings w }
  | some (.ingest key) =>
      { mgr with
        ingest_connections := fun k =>
          if k = key then
            if mgr.ingest_connections key = some ws then none
            else mgr.ingest_connections key
          else mgr.ingest_connections k
        connection_meetings := fun w =>
          if w = ws then none else mgr.connection_meetings w }

/-- One value of the router-level `ingest_registry` dict
(backend/app/routers/ws.py lines 238-245). `wsConnected` models the
transport state consulted as `client_state != DISCONNECTED`. -/
structure IngestEntry where
  wsId : Nat
  wsConnected : Bool
  device_id : String
  source : String
  sample_rate : Int
  channels : Int
  is_closing : Bool
  deriving DecidableEq, Repr

/-- The mutable module-level state of backend/app/routers/ws.py:
`ingest_registry` (line 123), the `ConnectionManager` singleton
`ws_manager`, and the per-meeting final-segment counters
`meeting_segments` (line 31). -/
structure WsState where
  ingest_registry : String × String → Option IngestEntry
  manager : ConnManager
  meeting_segments : String → Option Nat

/-- The initial (empty) router state. -/
def WsState.empty : WsState :=
  { ingest_registry := fun _ => none
    manager := ConnManager.empty
    meeting_segments := fun _ => none }

/-- Observable actions of the ingest registration step. -/
inductive RegEvent where
  | closedOld (ws : Nat) (code : Nat) (reason : String)
  | registered (ws : Nat)
  deriving DecidableEq, Repr

/-- Step 5 of `websocket_ingest` (backend/app/routers/ws.py lines
224-249): when the connection key is already occupied by an entry that is
not closing and whose websocket is still connected, close that old
websocket with code 1012 and reason "replaced"; then overwrite the
registry entry with the new connection and mirror it into the connection
manager. The returned event list is in program order: the close of the
old connection precedes the registration of the new one. -/
def registerIngestConnection (st : WsState) (key : String × String)
    (entry : IngestEntry) : List RegEvent × WsState :=
  let closes : List RegEvent :=
    match st.ingest_registry key with
    | some old =>
        if ¬ old.is_closing ∧ old.wsConnected then
          [.closedOld old.wsId 1012 "replaced"]
        else []
    | none => []
  (closes ++ [.registered entry.wsId],
   { st with
     ingest_registry := fun k =>
       if k = key then some { entry with is_closing := false }
       else st.ingest_registry k
     manager :=
       { st.manager with
         ingest_connections := fun k =>
           if k = key then some entry.wsId else st.manager.ingest_connections k
         connection_meetings := fun w =>
           if w = entry.wsId then some (.ingest key)
           else st.manager.connection_meetings w } })

/-- The `finally` block of `websocket_ingest` (backend/app/routers/ws.py
lines 413-428): pop the `ingest_registry` entry for the key whenever the
key is present (the pop is NOT guarded by an identity check against this
session's websocket), run `ws_manager.disconnect` for this websocket
(which IS guarded, connection.py line 55), and pop the shared per-meeting
segment counter. -/
def ingestTeardown (st : WsState) (key : String × String) (ws : Nat)
    (meeting_id : String) : WsState :=
  let st1 : WsState :=
    { st with
      ingest_registry := fun k => if k = key then none else st.ingest_registry k }
  let st2 : WsState := { st1 with manager := st1.manager.disconnect ws }
  { st2 with
    meeting_segments := fun m =>
      if m = meeting_id then none else st2.meeting_segments m }

/-! ## Connection rate limiter
Embedding of `ConnectionRateLimiter.check_rate_limit`
(backend/app/websocket/ingest.py lines 62-88). The per-key deque of
attempt timestamps is a list of `Int` seconds in arrival order; the
while-loop popping expired entries from the left is `dropWhile`. The
deque's `maxlen=10` never binds, because an admitted list always has at
most `RATE_LIMIT_MAX_ATTEMPTS = 5` entries after pruning. -/

/-- `check_rate_limit(meeting_id, source)` for one key, as a pure function
of that key's timestamp list and the current time: prune timestamps older
than `now - RATE_LIMIT_WINDOW` from the front, reject when at least
`RATE_LIMIT_MAX_ATTEMPTS` remain, otherwise append `now` and admit. -/
def check_rate_limit (timestamps : List Int) (now : Int) : Bool × List Int :=
  let pruned := timestamps.dropWhile (fun t => t < now - rateLimitWindow)
  if pruned.length ≥ rateLimitMaxAttempts then
    (false, pruned)
  else
    (true, pruned ++ [now])

/-- Events observable at the boundary of an ingest handler. -/
inductive SEvent where
  | closed (code : Nat) (reason : String)
  | accepted
  | closedOld (ws : Nat) (code : Nat) (reason : String)
  | sentHandshakeAck
  | sentErrorMsg (message : String)
  | raisedNameError (name_ : String)
  deriving DecidableEq, Repr

/-- The admission gate of `handle_websocket_ingest`
(backend/app/websocket/ingest.py lines 188-197): consult
`check_rate_limit` before `websocket.accept()`; on rejection close with
code 1013 and never accept; on admission continue (the events of the
later phases are not part of this gate). Returns
(admitted, events, updated timestamp list). -/
def handleIngestRateGate (timestamps : List Int) (now : Int) :
    Bool × List SEvent × List Int :=
  let r := check_rate_limit timestamps now
  if r.1 then (true, [], r.2)
  else (false, [.closed 1013 "Rate limit exceeded. Try again later."], r.2)

/-! ## Transcript fan-out bus
Embedding of `RedisBus` (backend/app/services/pubsub/redis_bus.py). Only
the handler bookkeeping matters for the claims: `subscribers` is a dict
from channel name to the single registered handler (line 20), `subscribe`
overwrites it (line 166), `unsubscribe` deletes it (lines 178-181), and
the listener loop dispatches an inbound message to `subscribers.get
(channel)` (lines 193-199). Handlers are abstracted by a type parameter;
`connected` models `self.redis` being non-None (subscribe is a no-op in
degraded mode, lines 162-164). -/
structure BusState (H : Type) where
  connected : Bool
  subscribers : String → Option H

/-- `RedisBus.subscribe(channel, handler)`: no-op when not connected,
otherwise store `handler` as the channel's only handler, replacing any
previous one. -/
def busSubscribe {H : Type} (st : BusState H) (channel : String) (handler : H) :
    BusState H :=
  if st.connected then
    { st with subscribers := fun c =>
        if c = channel then some handler else st.subscribers c }
  else st

/-- `RedisBus.unsubscribe(channel)`: delete the channel's handler if
present (unconditionally of the connection state). -/
def busUnsubscribe {H : Type} (st : BusState H) (channel : String) : BusState H :=
  { st with subscribers := fun c =>
      if c = channel then none else st.subscribers c }

/-- The handler the listener loop would invoke for a message on
`channel` (`self.subscribers.get(channel)`, redis_bus.py line 197):
`none` means the message is dropped and no subscriber websocket
receives anything. -/
def busDispatch {H : Type} (st : BusState H) (channel : String) : Option H :=
  st.subscribers channel

/-- `RedisBus.get_meeting_transcript_topic` (redis_bus.py line 208). -/
def meetingTranscriptTopic (meeting_id : String) : String :=
  "meeting:" ++ meeting_id ++ ":transcript"

/-! ## Streaming loop of `websocket_ingest`
Embedding of the per-message processing of backend/app/routers/ws.py
lines 379-406. -/

/-- One inbound frame of the steady-state loop: a binary audio frame of a
given byte length, a parsed control message of a given type, a text frame
that fails `IngestControlMessage` validation, or the transport-level
disconnect message. -/
inductive StreamMsg where
  | audio (numBytes : Nat)
  | ctrl (ctrlType : String)
  | ctrlInvalid
  | disconnect
  deriving DecidableEq, Repr

/-- Observable outcome of handling frames in the streaming loop. -/
inductive StreamEvent where
  | forwarded (numBytes : Nat)
  | droppedFrame (numBytes : Nat)
  | finalizedUpstream
  deriving DecidableEq, Repr

/-- The `while True` receive loop (ws.py lines 380-406) over a list of
inbound frames: audio frames strictly larger than `max_bytes` are logged
and dropped with `continue`; others are forwarded to the upstream client;
a `finalize` control calls `client.finalize()` and breaks; a `close`
control breaks; an unparseable control is logged and ignored; a
disconnect breaks. -/
def runStreamLoop (max_bytes : Nat) : List StreamMsg → List StreamEvent
  | [] => []
  | .audio n :: rest =>
      if n > max_bytes then .droppedFrame n :: runStreamLoop max_bytes rest
      else .forwarded n :: runStreamLoop max_bytes rest
  | .ctrl t :: rest =>
      if t = "finalize" then [.finalizedUpstream]
      else if t = "close" then []
      else runStreamLoop max_bytes rest
  | .ctrlInvalid :: rest => runStreamLoop max_bytes rest
  | .disconnect :: _ => []

/-! ## The `on_transcript` callback
Embedding of the Deepgram result callback defined inside
`websocket_ingest` (backend/app/routers/ws.py lines 260-344). Its body
runs, in program order: read `is_final` (line 261); if final, increment
the per-meeting counter (line 264); compute `mapped_source` from
`hs.source` (line 267) — `hs` is bound nowhere in the module, so this
line raises `NameError`; build the message (line 272); if final, call
`store_final_transcript` (line 285); publish to the meeting transcript
topic (line 307). -/

/-- Effects of one `on_transcript` invocation, in program order. -/
inductive TEffect where
  | incrCounter
  | storeFinal (key : String)
  | publish (topic : String)
  | raiseName (name_ : String)
  deriving DecidableEq, Repr

/-- The callback exactly as written: for a final result the counter is
incremented and then the unbound name `hs` is evaluated, raising
`NameError` before either the storage call or the publish is reached;
for a non-final result the `NameError` is the first effect. -/
def onTranscriptEffects (is_final : Bool) : List TEffect :=
  if is_final then [.incrCounter, .raiseName "hs"]
  else [.raiseName "hs"]

/-- Does `e` broadcast a segment on the fan-out bus? -/
def TEffect.isPublish : TEffect → Bool
  | .publish _ => true
  | _ => false

/-- Does `e` call the transcript store? -/
def TEffect.isStore : TEffect → Bool
  | .storeFinal _ => true
  | _ => false

/-- Some publish effect occurs strictly before some store effect. -/
def hasPublishBeforeStore : List TEffect → Bool
  | [] => false
  | e :: es => (e.isPublish && es.any TEffect.isStore) || hasPublishBeforeStore es

/-- Some store effect occurs strictly before some publish effect. -/
def hasStoreBeforePublish : List TEffect → Bool
  | [] => false
  | e :: es => (e.isStore && es.any TEffect.isPublish) || hasStoreBeforePublish es

/-- The callback with the stale `hs` reference read as the validated
handshake fields of the enclosing handler (`handshake_source` from ws.py
line 198) — the evident intent of lines 266-267. With that one slip
repaired, a final result increments the counter, stores under the key
built from the stream id `"{meeting_id}_{mapped_source}"` (line 283),
and only then publishes to the meeting transcript topic; a non-final
result only publishes. Returns the effect list and the updated counter. -/
def onTranscriptRepaired (meeting_id handshake_source : String)
    (counter : Nat) (is_final : Bool) : List TEffect × Nat :=
  let c2 := if is_final then counter + 1 else counter
  let mapped := if handshake_source = "sys" ∨ handshake_source = "system"
                then "sys" else handshake_source
  let topic := meetingTranscriptTopic meeting_id
  if is_final then
    ([.incrCounter,
      .storeFinal (idempotentKey meeting_id (meeting_id ++ "_" ++ mapped) c2),
      .publish topic], c2)
  else
    ([.publish topic], c2)

/-! ## Per-meeting final-segment counter
The lifecycle of one meeting's entry in the `meeting_segments` dict of
backend/app/routers/ws.py: initialization on session setup (lines
256-257), increment on a final result (lines 263-264, the value
`meeting_segments[meeting_id]` after the increment is the number the
segment receives, lines 274 and 287), no change on a non-final result,
and removal in any ingest session's teardown for that meeting (line 428,
`meeting_segments.pop(meeting_id, None)`). -/

/-- Events touching one meeting's segment counter. -/
inductive SegEvent where
  | sessionInit
  | finalResult
  | interimResult
  | teardown
  deriving DecidableEq, Repr

/-- One step of the counter lifecycle. The second component lists the
segment number issued by the event: `some (some n)` when a final result
is numbered `n`, `some none` when a final result arrives while the
counter entry is absent (in the source, `meeting_segments[meeting_id]
+= 1` then raises `KeyError`), `none` when no number is issued. -/
def segStep (c : Option Nat) : SegEvent → Option Nat × Option (Option Nat)
  | .sessionInit => (if c.isNone then some 0 else c, none)
  | .finalResult =>
      match c with
      | some n => (some (n + 1), some (some (n + 1)))
      | none => (none, some none)
  | .interimResult => (c, none)
  | .teardown => (none, none)

/-- Run a sequence of counter events, collecting the issued numbers. -/
def segRun (c : Option Nat) : List SegEvent → Option Nat × List (Option Nat)
  | [] => (c, [])
  | e :: es =>
      let s := segStep c e
      let r := segRun s.1 es
      (r.1, s.2.toList ++ r.2)

/-- Issued-number lists that are well-formed and strictly increasing
starting strictly above `lo`: every issuance succeeded (no `KeyError`)
and each number strictly exceeds the previous one. -/
def IssuedAbove (lo : Nat) : List (Option Nat) → Prop
  | [] => True
  | x :: xs => ∃ n, x = some n ∧ lo < n ∧ IssuedAbove n xs

instance : ∀ (lo : Nat) (l : List (Option Nat)), Decidable (IssuedAbove lo l)
  | _, [] => .isTrue trivial
  | lo, x :: xs =>
      match x with
      | none => .isFalse (by rintro ⟨n, h, -, -⟩; exact Option.noConfusion h)
      | some m =>
          if hlt : lo < m then
            match instDecidableIssuedAbove m xs with
            | .isTrue h => .isTrue ⟨m, rfl, hlt, h⟩
            | .isFalse h => .isFalse (by
                rintro ⟨n, hn, -, hrest⟩
                obtain rfl := Option.some.inj hn
                exact h hrest)
          else
            .isFalse (by
              rintro ⟨n, hn, hlo, -⟩
              obtain rfl := Option.some.inj hn
              exact hlt hlo)

/-! ## The ingest session handler
Embedding of `websocket_ingest` (backend/app/routers/ws.py lines
125-430) as a function from the client's behaviour to the ordered list
of observable server events and the final module state. Authentication
is abstracted to two booleans (a credential is present / the external
verifier accepts it); the first frame is the parsed JSON of
`receive_json` (`none` models the 6-second handshake timeout or a
receive error). After the handshake acknowledgment and the segment
counter initialization, line 353 evaluates the unbound name `hs`
(`hs.language`) while constructing the `DeepgramLiveClient`; the
resulting `NameError` is caught by the generic `except` of line 410,
so the handler never enters the streaming loop, never touches the
remaining frames, sends no close frame of its own, and runs the
`finally` teardown. -/

/-- A JSON field value as read by `msg.get(...)`: a string, an integer,
an absent key, or a value of any other JSON type. -/
inductive HVal where
  | str (s : String)
  | int (n : Int)
  | absent
  | other
  deriving DecidableEq, Repr

/-- The handshake JSON object, reduced to the five fields the handler
reads (ws.py lines 191-199). -/
structure InJson where
  msgType : HVal
  device_id : HVal
  source : HVal
  sample_rate : HVal
  channels : HVal
  deriving DecidableEq, Repr

/-- First-frame validation of ws.py lines 191-220, in source order.
Returns the close reason on failure, or the validated
(device_id, handshake_source) on success. -/
def validateHandshake (m : InJson) : Sum String (String × String) :=
  if m.msgType ≠ .str "handshake" then .inl "expected-handshake"
  else
    match m.device_id with
    | .str d =>
        if d = "" then .inl "invalid-device-id"
        else if m.source ≠ .str "mic" ∧ m.source ≠ .str "sys" then
          .inl "invalid-source"
        else if m.sample_rate ≠ .int ingestSampleRate then
          .inl "invalid-sample-rate"
        else if m.channels ≠ .int ingestChannels then
          .inl "invalid-channels"
        else
          match m.source with
          | .str s => .inr (d, s)
          | _ => .inl "invalid-source"
    | _ => .inl "invalid-device-id"

/-- `websocket_ingest`: token extraction and verification, accept,
handshake validation, duplicate replacement and registration,
acknowledgment, counter initialization — and then the `NameError` on
the unbound `hs` at client construction (line 353), after which the
`finally` block (modelled by `ingestTeardown`) runs. The steady-state
frames `rest` are never reached. -/
def runIngestSession (st : WsState) (meeting_id sourceParam : String)
    (ws : Nat) (tokenPresent tokenValid : Bool) (firstFrame : Option InJson)
    (rest : List StreamMsg) : List SEvent × WsState :=
  if ¬ tokenPresent then
    ([.closed 1008 "auth failed: No token provided in Authorization header or query parameter"], st)
  else if ¬ tokenValid then
    ([.closed 1008 "auth failed"], st)
  else
    match firstFrame with
    | none => ([.accepted, .closed 1002 "handshake-timeout"], st)
    | some m =>
        match validateHandshake m with
        | .inl reason => ([.accepted, .closed 1002 reason], st)
        | .inr (device_id, handshake_source) =>
            let key := (meeting_id, sourceParam)
            let r := registerIngestConnection st key
              { wsId := ws, wsConnected := true, device_id := device_id,
                source := handshake_source, sample_rate := ingestSampleRate,
                channels := ingestChannels, is_closing := false }
            let closeEvents := r.1.filterMap fun e =>
              match e with
              | .closedOld w c reason => some (SEvent.closedOld w c reason)
              | .registered _ => none
            let st3 : WsState :=
              { r.2 with meeting_segments := fun mId =>
                  if mId = meeting_id then
                    if (r.2.meeting_segments meeting_id).isNone then some 0
                    else r.2.meeting_segments meeting_id
                  else r.2.meeting_segments mId }
            let _ := rest
            ([.accepted] ++ closeEvents ++ [.sentHandshakeAck, .raisedNameError "hs"],
             ingestTeardown st3 key ws meeting_id)

/-! ## Theorems -/

/-- Helper: a key counted zero times is not found by the existence check. -/
lemma existsKey_eq_false_of_countKey_eq_zero {db : List TranscriptRow}
    {key : String} (h : countKey db key = 0) : existsKey db key = false := by
  have hfilter : db.filter (fun r => r.idempotent_key == key) = [] :=
    List.length_eq_zero.mp h
  rw [existsKey]
  by_contra hc
  rw [Bool.not_eq_false, List.any_eq_true] at hc
  obtain ⟨x, hx, hpx⟩ := hc
  have hmem : x ∈ db.filter (fun r => r.idempotent_key == key) :=
    List.mem_filter.mpr ⟨hx, hpx⟩
  rw [hfilter] at hmem
  exact absurd hmem (List.not_mem_nil x)

/-- C1: calling `store_final_transcript` twice with the same
(meeting_id, stream_id, segment_no) — hence the same idempotency key —
starting from a database without that key, stores exactly one row with
that key; the second call returns success and performs no write. -/
theorem C1_store_final_idempotent
    (db : List TranscriptRow) (mid sid : String) (seg : Nat)
    (t1 t2 : String) (s1 e1 s2 e2 : Int) (sp1 sp2 : Option String)
    (cf1 cf2 : Option Rat) (rj1 rj2 : Option String)
    (h : countKey db (idempotentKey mid sid seg) = 0) :
    (store_final_transcript db mid seg t1 s1 e1 sid sp1 cf1 rj1).1 = true ∧
    (store_final_transcript
        (store_final_transcript db mid seg t1 s1 e1 sid sp1 cf1 rj1).2
        mid seg t2 s2 e2 sid sp2 cf2 rj2).1 = true ∧
    (store_final_transcript
        (store_final_transcript db mid seg t1 s1 e1 sid sp1 cf1 rj1).2
        mid seg t2 s2 e2 sid sp2 cf2 rj2).2 =
      (store_final_transcript db mid seg t1 s1 e1 sid sp1 cf1 rj1).2 ∧
    countKey
      (store_final_transcript
        (store_final_transcript db mid seg t1 s1 e1 sid sp1 cf1 rj1).2
        mid seg t2 s2 e2 sid sp2 cf2 rj2).2
      (idempotentKey mid sid seg) = 1 := by
  have hex := existsKey_eq_false_of_countKey_eq_zero h
  simp only [store_final_transcript, hex, Bool.false_eq_true, if_false]
  have hex2 : existsKey
      (db ++ [{ meeting_id := mid, segment_no := seg, speaker := sp1, text := t1,
                start_ms := s1, end_ms := e1, is_final := true, confidence := cf1,
                raw_json := rj1, idempotent_key := idempotentKey mid sid seg }])
      (idempotentKey mid sid seg) = true := by
    simp [existsKey]
  simp only [hex2, if_true]
  refine ⟨trivial, trivial, trivial, ?_⟩
  have h0 : (List.filter (fun r => r.idempotent_key == idempotentKey mid sid seg) db).length
      = 0 := h
  simp [countKey, List.filter_append, h0]

/-- Closed witness for C1 at a concrete store call. -/
theorem C1_store_final_idempotent_witness :
    (store_final_transcript
        (store_final_transcript [] "m1" 3 "hello" 0 100 "m1_mic" none none none).2
        "m1" 3 "hello" 0 100 "m1_mic" none none none).1 = true ∧
    countKey
      (store_final_transcript
        (store_final_transcript [] "m1" 3 "hello" 0 100 "m1_mic" none none none).2
        "m1" 3 "hello" 0 100 "m1_mic" none none none).2
      (idempotentKey "m1" "m1_mic" 3) = 1 := by
  have h := C1_store_final_idempotent [] "m1" "m1_mic" 3 "hello" "hello"
    0 100 0 100 none none none none none none (by decide)
  exact ⟨h.2.1, h.2.2.2⟩

/-- C2: registering an ingest connection for a key occupied by a live
(non-closing, still-connected) entry emits exactly one close of that old
websocket with code 1012 and reason "replaced", in program order before
the registration of the new entry; afterwards the registry and the
connection manager hold exactly the new connection under that key, every
other key being untouched (the registry holds at most one entry per key
by construction). -/
theorem C2_ingest_replacement
    (st : WsState) (key : String × String) (old entry : IngestEntry)
    (hold : st.ingest_registry key = some old)
    (hlive : old.is_closing = false) (hconn : old.wsConnected = true) :
    (registerIngestConnection st key entry).1 =
      [.closedOld old.wsId 1012 "replaced", .registered entry.wsId] ∧
    (registerIngestConnection st key entry).2.ingest_registry key =
      some { entry with is_closing := false } ∧
    (registerIngestConnection st key entry).2.manager.ingest_connections key =
      some entry.wsId ∧
    (∀ k, k ≠ key →
      (registerIngestConnection st key entry).2.ingest_registry k =
        st.ingest_registry k) := by
  refine ⟨?_, ?_, ?_, ?_⟩
  · simp [registerIngestConnection, hold, hlive, hconn]
  · simp [registerIngestConnection]
  · simp [registerIngestConnection]
  · intro k hk
    simp [registerIngestConnection, hk]

/-- Concrete first ingest connection for the C2 witness. -/
def entryA : IngestEntry :=
  { wsId := 1, wsConnected := true, device_id := "devA", source := "mic",
    sample_rate := 16000, channels := 1, is_closing := false }

/-- Concrete second (duplicate) ingest connection. -/
def entryB : IngestEntry :=
  { wsId := 2, wsConnected := true, device_id := "devB", source := "mic",
    sample_rate := 16000, channels := 1, is_closing := false }

/-- State after registering `entryA` for ("m1", "mic"). -/
def stAfterA : WsState :=
  (registerIngestConnection WsState.empty ("m1", "mic") entryA).2

/-- Closed witness for C2: the duplicate registration for ("m1", "mic")
closes websocket 1 with "replaced" and leaves only websocket 2
registered. -/
theorem C2_ingest_replacement_witness :
    (registerIngestConnection stAfterA ("m1", "mic") entryB).1 =
      [.closedOld 1 1012 "replaced", .registered 2] ∧
    (registerIngestConnection stAfterA ("m1", "mic") entryB).2.ingest_registry
      ("m1", "mic") = some { entryB with is_closing := false } := by
  have h := C2_ingest_replacement stAfterA ("m1", "mic") entryA entryB
    (by decide) (by decide) (by decide)
  exact ⟨h.1, h.2.1⟩

/-- C3 counterexample: on a final result, the `on_transcript` callback as
written increments the counter and then raises `NameError` on the
unbound name `hs`; no publish (broadcast) effect occurs at all, let
alone before the storage call, so the claimed broadcast-then-persist
ordering is false on the code. -/
theorem C3_counterexample :
    onTranscriptEffects true = [.incrCounter, .raiseName "hs"] ∧
    hasPublishBeforeStore (onTranscriptEffects true) = false ∧
    (onTranscriptEffects true).all
      (fun e => !e.isPublish && !e.isStore) = true := by decide

/-- C3 amended: in the handler for a final transcript result, reading
the stale `hs` reference as the validated handshake fields, the
persistence call (`store_final_transcript`, ws.py line 285) is made
strictly before the publish to the fan-out topic (ws.py line 307) —
persist-then-broadcast, never broadcast-then-persist; the handler
exactly as written raises `NameError` before reaching either call. -/
theorem C3_persist_then_broadcast (mid src : String) (c : Nat) :
    hasStoreBeforePublish (onTranscriptRepaired mid src c true).1 = true ∧
    hasPublishBeforeStore (onTranscriptRepaired mid src c true).1 = false ∧
    onTranscriptEffects true = [.incrCounter, .raiseName "hs"] := by
  refine ⟨?_, ?_, rfl⟩
  · simp [onTranscriptRepaired, hasStoreBeforePublish, TEffect.isStore,
      TEffect.isPublish]
  · simp [onTranscriptRepaired, hasPublishBeforeStore, TEffect.isStore,
      TEffect.isPublish]

/-- Is this event any close of the connection? -/
def isCloseEvent : SEvent → Bool
  | .closed _ _ => true
  | _ => false

/-- The handshake JSON every claim scenario uses: matches the configured
sample rate 16000 and channel count 1. -/
def validHandshakeJson : InJson :=
  { msgType := .str "handshake", device_id := .str "dev1",
    source := .str "mic", sample_rate := .int 16000, channels := .int 1 }

/-- C4 counterexample: with five attempt timestamps inside the 10-second
window the rate limiter rejects a sixth attempt, yet the application's
mounted ingest endpoint (`websocket_ingest` of backend/app/routers/ws.py,
which contains no rate-limiter call) accepts the connection after
authentication alone — its behaviour does not depend on any attempt
history, and it never emits the too-many-attempts (1013) close. -/
theorem C4_counterexample :
    (check_rate_limit [0, 0, 0, 0, 0] 1).1 = false ∧
    SEvent.accepted ∈
      (runIngestSession WsState.empty "m1" "mic" 7 true true
        (some validHandshakeJson) []).1 ∧
    (runIngestSession WsState.empty "m1" "mic" 7 true true
        (some validHandshakeJson) []).1.any isCloseEvent = false := by decide

/-- Helper: on a list sorted by ≤, dropping the prefix of elements below
a cutoff is the same as filtering for elements at or above the cutoff. -/
lemma dropWhile_lt_eq_filter_le (c : Int) :
    ∀ l : List Int, List.Sorted (· ≤ ·) l →
      l.dropWhile (fun t => t < c) = l.filter (fun t => c ≤ t) := by
  intro l
  induction l with
  | nil => intro _; rfl
  | cons a l ih =>
      intro hsort
      rw [List.sorted_cons] at hsort
      by_cases ha : a < c
      · have hna : ¬ c ≤ a := by omega
        simp only [List.dropWhile_cons, List.filter_cons]
        rw [if_pos (decide_eq_true ha), if_neg (fun h => hna (of_decide_eq_true h))]
        exact ih hsort.2
      · have hca : c ≤ a := by omega
        simp only [List.dropWhile_cons, List.filter_cons]
        rw [if_neg (fun h => ha (of_decide_eq_true h)), if_pos (decide_eq_true hca)]
        have hfl : l.filter (fun t => decide (c ≤ t)) = l :=
          List.filter_eq_self.mpr
            (fun b hb => decide_eq_true (le_trans hca (hsort.1 b hb)))
        rw [hfl]

/-- C4 amended: the rate-limiting logic lives in
`ConnectionRateLimiter.check_rate_limit` and is consulted before the
accept only by `handle_websocket_ingest`
(backend/app/websocket/ingest.py), a handler that is wired only through
the unused `ws_new` router; there, on a chronologically ordered attempt
history, an attempt is admitted exactly when fewer than
`RATE_LIMIT_MAX_ATTEMPTS` = 5 timestamps fall within the rolling
`RATE_LIMIT_WINDOW` = 10 s, the new timestamp is appended and expired
ones pruned on admission, and a rejected attempt is closed with a 1013
too-many-attempts signal without being accepted. The mounted ingest
endpoint (backend/app/routers/ws.py) performs no rate-limit check at
all (see the counterexample). -/
theorem C4_rate_limiter (ts : List Int) (now : Int)
    (hsort : List.Sorted (· ≤ ·) ts) :
    ((check_rate_limit ts now).1 = true ↔
      (ts.filter (fun t => now - rateLimitWindow ≤ t)).length <
        rateLimitMaxAttempts) ∧
    ((check_rate_limit ts now).1 = true →
      (check_rate_limit ts now).2 =
        ts.filter (fun t => now - rateLimitWindow ≤ t) ++ [now]) ∧
    ((check_rate_limit ts now).1 = false →
      (check_rate_limit ts now).2 =
        ts.filter (fun t => now - rateLimitWindow ≤ t)) ∧
    (handleIngestRateGate ts now).1 = (check_rate_limit ts now).1 ∧
    ((check_rate_limit ts now).1 = false →
      (handleIngestRateGate ts now).2.1 =
        [.closed 1013 "Rate limit exceeded. Try again later."] ∧
      SEvent.accepted ∉ (handleIngestRateGate ts now).2.1) := by
  have hdrop := dropWhile_lt_eq_filter_le (now - rateLimitWindow) ts hsort
  simp only [check_rate_limit, handleIngestRateGate, hdrop]
  generalize ts.filter (fun t => now - rateLimitWindow ≤ t) = F
  by_cases hlen : F.length ≥ rateLimitMaxAttempts
  · simp only [if_pos hlen]
    refine ⟨?_, ?_, ?_, ?_, ?_⟩
    · constructor
      · intro h; exact absurd h Bool.false_ne_true
      · intro h; exact absurd hlen (by omega)
    · intro h; exact absurd h Bool.false_ne_true
    · intro _; trivial
    · simp
    · intro _; exact ⟨by simp, by simp⟩
  · simp only [if_neg hlen]
    refine ⟨?_, ?_, ?_, ?_, ?_⟩
    · constructor
      · intro _; omega
      · intro _; trivial
    · intro _; trivial
    · intro h; simp at h
    · simp
    · intro h; simp at h

/-- Closed witness for C4 amended: a sixth rapid attempt is rejected by
the gate with the 1013 close and is never accepted. -/
theorem C4_rate_limiter_witness :
    (handleIngestRateGate [0, 0, 0, 0, 0] 1).2.1 =
      [.closed 1013 "Rate limit exceeded. Try again later."] ∧
    SEvent.accepted ∉ (handleIngestRateGate [0, 0, 0, 0, 0] 1).2.1 :=
  (C4_rate_limiter [0, 0, 0, 0, 0] 1 (by decide)).2.2.2.2 (by decide)

/-- C5 (code bug): for a valid handshake followed by a finalize control
frame, the session of backend/app/routers/ws.py sends exactly one
handshake-ack and then dies on the `NameError` raised by the unbound
name `hs` while constructing the upstream relay client (line 353): the
relay is never connected, the finalize frame is never consumed, and the
handler performs no terminal close of its own — neither a
normal-completion nor an error close ever leaves the handler. -/
theorem C5_round_trip_dies_on_name_error :
    (runIngestSession WsState.empty "m1" "mic" 7 true true
        (some validHandshakeJson) [.ctrl "finalize"]).1 =
      [.accepted, .sentHandshakeAck, .raisedNameError "hs"] ∧
    (runIngestSession WsState.empty "m1" "mic" 7 true true
        (some validHandshakeJson) [.ctrl "finalize"]).1.count
      .sentHandshakeAck = 1 ∧
    (runIngestSession WsState.empty "m1" "mic" 7 true true
        (some validHandshakeJson) [.ctrl "finalize"]).1.any
      isCloseEvent = false ∧
    (runIngestSession WsState.empty "m1" "mic" 7 true true
        (some validHandshakeJson) [.ctrl "finalize"]).1 =
      (runIngestSession WsState.empty "m1" "mic" 7 true true
        (some validHandshakeJson) []).1 := by decide

/-- C6: in the streaming loop of backend/app/routers/ws.py, an audio
frame of at most the configured maximum size is forwarded to the
upstream relay and the loop continues; a frame strictly larger is
dropped (logged) and the loop likewise continues with the remaining
frames, so the session stays alive to accept further frames. -/
theorem C6_frame_size_boundary (max_bytes n m : Nat) (rest : List StreamMsg)
    (hle : n ≤ max_bytes) (hgt : max_bytes < m) :
    runStreamLoop max_bytes (.audio n :: rest) =
      .forwarded n :: runStreamLoop max_bytes rest ∧
    runStreamLoop max_bytes (.audio m :: rest) =
      .droppedFrame m :: runStreamLoop max_bytes rest := by
  constructor
  · have h : ¬ n > max_bytes := by omega
    simp [runStreamLoop, h]
  · simp [runStreamLoop, hgt]

/-- Closed witness for C6 at the default `MAX_INGEST_MSG_BYTES` 32768:
the 32768-byte frame is forwarded, the 32769-byte frame is dropped, and
in both cases the following frame is still processed. -/
theorem C6_frame_size_boundary_witness :
    runStreamLoop maxIngestMsgBytes [.audio 32768, .audio 16] =
      [.forwarded 32768, .forwarded 16] ∧
    runStreamLoop maxIngestMsgBytes [.audio 32769, .audio 16] =
      [.droppedFrame 32769, .forwarded 16] := by
  have h := C6_frame_size_boundary maxIngestMsgBytes 32768 32769 [.audio 16]
    (by decide) (by decide)
  have h16 : runStreamLoop maxIngestMsgBytes [.audio 16] = [.forwarded 16] := by decide
  exact ⟨by rw [h.1, h16], by rw [h.2, h16]⟩

/-- C7: registering a subscriber for a meeting that already holds the
configured maximum (20) fails and changes nothing; a registration never
pushes a meeting's subscriber count above the maximum; and after one
existing subscriber of a full meeting disconnects, a new subscriber
registers successfully. -/
theorem C7_subscriber_cap (mgr : ConnManager) (meeting : String) (ws ws2 : Nat)
    (hinfo : mgr.connection_meetings ws = some (.sub meeting))
    (hin : ws ∈ mgr.subscriber_connections meeting)
    (hfull : (mgr.subscriber_connections meeting).length = maxWsClientsPerMeeting) :
    (register_subscriber mgr meeting ws2 maxWsClientsPerMeeting).1 = false ∧
    (register_subscriber mgr meeting ws2 maxWsClientsPerMeeting).2 = mgr ∧
    (∀ (mgr2 : ConnManager) (m : String) (w : Nat),
      (mgr2.subscriber_connections m).length ≤ maxWsClientsPerMeeting →
      ((register_subscriber mgr2 m w maxWsClientsPerMeeting).2.subscriber_connections
        m).length ≤ maxWsClientsPerMeeting) ∧
    (register_subscriber (mgr.disconnect ws) meeting ws2 maxWsClientsPerMeeting).1
      = true := by
  refine ⟨?_, ?_, ?_, ?_⟩
  · simp [register_subscriber, hfull]
  · simp [register_subscriber, hfull]
  · intro mgr2 m w h
    by_cases hc : (mgr2.subscriber_connections m).length ≥ maxWsClientsPerMeeting
    · simp only [register_subscriber, if_pos hc]
      exact h
    · simp [register_subscriber, hc]
      omega
  · have hlen : ((mgr.disconnect ws).subscriber_connections meeting).length =
        maxWsClientsPerMeeting - 1 := by
      unfold ConnManager.disconnect
      rw [hinfo]
      simp [List.length_erase_of_mem hin, hfull]
    have hc : ¬ ((mgr.disconnect ws).subscriber_connections meeting).length ≥
        maxWsClientsPerMeeting := by
      rw [hlen]; decide
    simp [register_subscriber, hc]

/-- A meeting "m1" already holding the maximum of 20 subscribers
(websockets 1 to 20), for the C7 witness. -/
def mgrFull : ConnManager :=
  { subscriber_connections := fun m =>
      if m = "m1" then (List.range 20).map (· + 1) else []
    ingest_connections := fun _ => none
    connection_meetings := fun w =>
      if 1 ≤ w ∧ w ≤ 20 then some (.sub "m1") else none }

/-- Closed witness for C7: the 21st subscriber is refused on the full
meeting; after subscriber 1 disconnects the new subscriber is accepted. -/
theorem C7_subscriber_cap_witness :
    (register_subscriber mgrFull "m1" 21 maxWsClientsPerMeeting).1 = false ∧
    (register_subscriber (mgrFull.disconnect 1) "m1" 21
      maxWsClientsPerMeeting).1 = true := by
  have h := C7_subscriber_cap mgrFull "m1" 1 21 (by decide) (by decide) (by decide)
  exact ⟨h.1, h.2.2.2⟩

/-- State after registering `entryA` and then its replacement `entryB`
for ("m1", "mic") — entryB now owns the key. -/
def stAfterB : WsState :=
  (registerIngestConnection stAfterA ("m1", "mic") entryB).2

/-- C8 (code bug): when session A (websocket 1), already superseded by
session B (websocket 2) on ("m1", "mic"), runs its teardown, the
`finally` block of backend/app/routers/ws.py pops the `ingest_registry`
entry unconditionally (lines 415-417), erasing B's entry — while the
connection-manager map, whose removal IS guarded by an identity check
(connection.py line 55), correctly keeps B. The claimed
remove-only-if-it-still-points-at-this-session behaviour thus fails for
the router registry: after A's teardown the key no longer holds B. -/
theorem C8_superseded_teardown_erases_newer_entry :
    stAfterB.ingest_registry ("m1", "mic") = some entryB ∧
    stAfterB.manager.ingest_connections ("m1", "mic") = some 2 ∧
    (ingestTeardown stAfterB ("m1", "mic") 1 "m1").ingest_registry
      ("m1", "mic") = none ∧
    (ingestTeardown stAfterB ("m1", "mic") 1 "m1").manager.ingest_connections
      ("m1", "mic") = some 2 := by decide

/-- C9 counterexample: over the lifetime of one meeting the
final-segment counter is not monotonically increasing: two finals are
numbered 1 and 2, a session teardown pops the meeting's counter (ws.py
line 428), a later session re-initializes it to 0, and the next final is
numbered 1 again — not strictly greater than the previously issued 2. -/
theorem C9_counterexample :
    segRun none [.sessionInit, .finalResult, .finalResult, .teardown,
      .sessionInit, .finalResult] =
      (some 1, [some 1, some 2, some 1]) ∧
    ¬ IssuedAbove 0 [some 1, some 2, some 1] := by decide

/-- Helper for C9: along any event sequence free of teardowns the
counter survives, never decreases, and the issued final-segment numbers
are defined and strictly increasing. -/
lemma segRun_no_teardown (es : List SegEvent) :
    ∀ c : Nat, SegEvent.teardown ∉ es →
      (∃ cEnd, (segRun (some c) es).1 = some cEnd ∧ c ≤ cEnd) ∧
      IssuedAbove c (segRun (some c) es).2 := by
  induction es with
  | nil => intro c _; exact ⟨⟨c, rfl, le_refl c⟩, trivial⟩
  | cons e es ih =>
      intro c hmem
      have htl : SegEvent.teardown ∉ es := fun h =>
        hmem (List.mem_cons_of_mem _ h)
      cases e with
      | sessionInit =>
          have h := ih c htl
          simpa [segRun, segStep] using h
      | finalResult =>
          have h := ih (c + 1) htl
          refine ⟨?_, ?_⟩
          · obtain ⟨cEnd, hEnd, hle⟩ := h.1
            exact ⟨cEnd, by simpa [segRun, segStep] using hEnd, by omega⟩
          · simp only [segRun, segStep, Option.toList]
            exact ⟨c + 1, rfl, Nat.lt_succ_self c, h.2⟩
      | interimResult =>
          have h := ih c htl
          simpa [segRun, segStep] using h
      | teardown =>
          exact absurd (List.mem_cons_self _ _) hmem

/-- C9 amended: the per-meeting counter is incremented only on final
results (a non-final result leaves it unchanged and issues nothing),
and within one counter epoch — between an initialization and the next
teardown for that meeting — every final segment receives a defined
number strictly greater than every number issued earlier in the epoch;
but any ingest session's teardown pops the meeting's shared counter, so
numbering restarts in a later epoch (see the counterexample), and a
final arriving after the pop finds no counter entry at all. -/
theorem C9_counter_monotone_within_epoch (es : List SegEvent) (c : Nat)
    (hnotd : SegEvent.teardown ∉ es) :
    (∀ n : Nat, segStep (some n) .interimResult = (some n, none)) ∧
    (∃ cEnd, (segRun (some c) es).1 = some cEnd ∧ c ≤ cEnd) ∧
    IssuedAbove c (segRun (some c) es).2 := by
  have h := segRun_no_teardown es c hnotd
  exact ⟨fun n => rfl, h.1, h.2⟩

/-- Closed witness for C9 amended: inside one epoch the issued numbers
1, 2 are strictly increasing above the initial counter 0. -/
theorem C9_counter_monotone_witness :
    IssuedAbove 0
      (segRun (some 0) [.sessionInit, .finalResult, .finalResult]).2 :=
  (C9_counter_monotone_within_epoch
    [.sessionInit, .finalResult, .finalResult] 0 (by decide)).2.2

/-- C10: the fan-out bus holds at most one handler per topic: a second
`subscribe` on the same topic replaces the first handler entirely, one
`unsubscribe` — as performed in any single subscriber session's cleanup
(ws.py line 117) — removes the topic's handler outright, after which the
listener loop dispatches nothing for that topic (so broker delivery
stops for every remaining subscriber of the meeting in this process;
there is no per-subscriber reference counting); other topics are
untouched. -/
theorem C10_bus_single_handler_per_topic {H : Type} (st : BusState H)
    (topic : String) (h1 h2 : H) (hconn : st.connected = true) :
    (busSubscribe (busSubscribe st topic h1) topic h2).subscribers topic
      = some h2 ∧
    (busUnsubscribe (busSubscribe (busSubscribe st topic h1) topic h2)
      topic).subscribers topic = none ∧
    busDispatch (busUnsubscribe (busSubscribe (busSubscribe st topic h1) topic h2)
      topic) topic = none ∧
    (∀ t, t ≠ topic →
      (busUnsubscribe (busSubscribe (busSubscribe st topic h1) topic h2)
        topic).subscribers t = st.subscribers t) := by
  refine ⟨?_, ?_, ?_, ?_⟩
  · simp [busSubscribe, hconn]
  · simp [busSubscribe, busUnsubscribe, hconn]
  · simp [busSubscribe, busUnsubscribe, busDispatch, hconn]
  · intro t ht
    simp [busSubscribe, busUnsubscribe, busDispatch, hconn, ht]

/-- Closed witness for C10 on a connected bus with two handlers on the
"meeting:m1:transcript" topic. -/
theorem C10_bus_single_handler_witness :
    (busSubscribe (busSubscribe (BusState.mk true (fun _ => none))
      (meetingTranscriptTopic "m1") 10) (meetingTranscriptTopic "m1")
      20).subscribers (meetingTranscriptTopic "m1") = some 20 ∧
    busDispatch (busUnsubscribe (busSubscribe (busSubscribe
      (BusState.mk true (fun _ => none)) (meetingTranscriptTopic "m1") 10)
      (meetingTranscriptTopic "m1") 20) (meetingTranscriptTopic "m1"))
      (meetingTranscriptTopic "m1") = none := by
  have h := C10_bus_single_handler_per_topic
    (BusState.mk true (fun (_ : String) => (none : Option Nat)))
    (meetingTranscriptTopic "m1") 10 20 rfl
  exact ⟨h.1, h.2.2.1⟩
